import Mathlib

/-!
Verification of the fab-agon-emulator core protocol and debugger bridge.

Shallow embedding of the Rust sources:
  * `src/agon-protocol/src/messages.rs`   — frame codec (`Message`, encode/decode/read_from)
  * `src/agon-ez80/src/socket_link.rs`    — shared TX/RX byte queues (`SocketState`)
  * `src/agon-ez80/src/main.rs`           — eZ80-side session handshake and TX pump
  * `src/agon-vdp-sdl/src/main.rs`        — VDP-side session handshake
  * `src/agon-dzrp-debugger/src/protocol.rs`, `translator.rs`, `server.rs`
                                          — DZRP debugger bridge

Bytes are modelled as `Nat` (values produced by the code are < 256); machine
integer truncation (`as u16`, `as u32`, `wrapping_add`) is made explicit with
`% 2^w`.  Rust `Vec<u8>` / byte slices are `List Nat`.  Rust strings
(`HelloAck.capabilities`) are modelled by their UTF-8 byte sequences; on the
encode side `capabilities.as_bytes()` is that sequence, and on the decode side
`String::from_utf8_lossy` is the identity on the (always valid UTF-8) bytes
produced by `encode`.  Fallible functions return `Except ProtocolError`.
Queues behind `Arc<Mutex<...>>` are modelled by explicit state passing
(the lock never fails in the source's happy path, and a poisoned lock only
drops the operation).
-/

namespace FabAgon

/-- Decidable equality for `Except`, used to evaluate decoder results on
concrete inputs. -/
instance {ε α : Type} [DecidableEq ε] [DecidableEq α] : DecidableEq (Except ε α) := fun x y =>
  match x, y with
  | .ok a, .ok b =>
      decidable_of_iff (a = b) ⟨fun h => h ▸ rfl, fun h => by cases h; rfl⟩
  | .error a, .error b =>
      decidable_of_iff (a = b) ⟨fun h => h ▸ rfl, fun h => by cases h; rfl⟩
  | .ok _, .error _ => isFalse fun h => Except.noConfusion h
  | .error _, .ok _ => isFalse fun h => Except.noConfusion h

/-! ## Frame codec — `src/agon-protocol/src/messages.rs` -/

/-- `PROTOCOL_VERSION` constant. -/
def PROTOCOL_VERSION : Nat := 1

/-- `MAX_UART_DATA_SIZE`: maximum payload size for UART_DATA messages. -/
def MAX_UART_DATA_SIZE : Nat := 1024

/-- Message type constants (`mod msg_type`). -/
def UART_DATA : Nat := 0x01

def VSYNC : Nat := 0x02

def CTS : Nat := 0x03

def HELLO : Nat := 0x10

def HELLO_ACK : Nat := 0x11

def SHUTDOWN : Nat := 0x20

/-- `enum ProtocolError`.  The `Io` payload (an `std::io::Error`) is not
inspected by any modelled code, so it is modelled as a bare constructor. -/
inductive ProtocolError where
  | Io : ProtocolError
  | UnknownMessageType : Nat → ProtocolError
  | PayloadTooLarge : Nat → ProtocolError
  | InvalidFormat : String → ProtocolError
  | ConnectionClosed : ProtocolError
deriving DecidableEq, Repr

/-- `enum Message`: messages exchanged between eZ80 and VDP over socket. -/
inductive Message where
  | UartData : List Nat → Message
  | Vsync : Message
  | Cts : Bool → Message
  | Hello : (version : Nat) → (flags : Nat) → Message
  | HelloAck : (version : Nat) → (capabilities : List Nat) → Message
  | Shutdown : Message
deriving DecidableEq, Repr

/-- `u16::to_le_bytes` of `n % 2^16` (low byte first). -/
def toLe16 (n : Nat) : List Nat := [n % 256, n / 256 % 256]

/-- `u16::from_le_bytes [b0, b1]` as a `Nat`. -/
def fromLe16 (b0 b1 : Nat) : Nat := b0 + 256 * b1

/-- The `match self` at the head of `Message::encode`: the wire type byte and
the payload bytes of a message. -/
def payloadOf : Message → Nat × List Nat
  | .UartData data => (UART_DATA, data)
  | .Vsync => (VSYNC, [])
  | .Cts ready => (CTS, [if ready then 1 else 0])
  | .Hello version flags => (HELLO, [version, flags])
  | .HelloAck version capabilities => (HELLO_ACK, version :: capabilities)
  | .Shutdown => (SHUTDOWN, [])

/-- `Message::encode`: wire format `[len:u16-LE][type:u8][payload...]` where
`len = (1 + payload.len()) as u16` counts the type byte (and wraps at 2^16,
as the Rust `as u16` cast does). -/
def Message.encode (m : Message) : List Nat :=
  let tp := payloadOf m
  toLe16 ((1 + tp.2.length) % 65536) ++ tp.1 :: tp.2

/-- The `match msg_type` body shared verbatim by `Message::decode` and
`Message::read_from`: interpret a type byte and payload bytes. -/
def decodeBody (msg_type : Nat) (payload : List Nat) : Except ProtocolError Message :=
  if msg_type = UART_DATA then .ok (.UartData payload)
  else if msg_type = VSYNC then .ok .Vsync
  else if msg_type = CTS then
    match payload with
    | [] => .error (.InvalidFormat "CTS message missing payload")
    | b :: _ => .ok (.Cts (b ≠ 0))
  else if msg_type = HELLO then
    match payload with
    | v :: f :: _ => .ok (.Hello v f)
    | _ => .error (.InvalidFormat "HELLO message too short")
  else if msg_type = HELLO_ACK then
    match payload with
    | [] => .error (.InvalidFormat "HELLO_ACK message too short")
    | v :: rest => .ok (.HelloAck v rest)
  else if msg_type = SHUTDOWN then .ok .Shutdown
  else .error (.UnknownMessageType msg_type)

/-- `Message::decode`: decode one message from a contiguous buffer, returning
the message and the number of bytes consumed (`2 + len`).  Indexing `data[i]`
is modelled with `List.getD _ _ 0`; every access is guarded by the source's
length checks. -/
def Message.decode (data : List Nat) : Except ProtocolError (Message × Nat) :=
  if data.length < 3 then .error (.InvalidFormat "Message too short")
  else
    let len := fromLe16 (data.getD 0 0) (data.getD 1 0)
    if len = 0 then .error (.InvalidFormat "Zero-length message")
    else
      let total_len := 2 + len
      if data.length < total_len then
        .error (.InvalidFormat
          ("Incomplete message: have " ++ toString data.length ++
            " bytes, need " ++ toString total_len))
      else
        match decodeBody (data.getD 2 0) ((data.take total_len).drop 3) with
        | .error e => .error e
        | .ok m => .ok (m, total_len)

/-- `Message::read_from`: streaming decode.  The reader is modelled as the
list of bytes it will yield; `read_exact` into an `n`-byte buffer fails with
`UnexpectedEof` — converted to `ConnectionClosed` by the `From` impl — when
fewer than `n` bytes remain.  Returns the message and the unread rest of the
stream. -/
def Message.read_from (stream : List Nat) : Except ProtocolError (Message × List Nat) :=
  if stream.length < 2 then .error .ConnectionClosed
  else
    let len := fromLe16 (stream.getD 0 0) (stream.getD 1 0)
    if len = 0 then .error (.InvalidFormat "Zero-length message")
    else if MAX_UART_DATA_SIZE + 1 < len then .error (.PayloadTooLarge len)
    else
      let rest := stream.drop 2
      if rest.length < len then .error .ConnectionClosed
      else
        let data := rest.take len
        match decodeBody (data.getD 0 0) (data.drop 1) with
        | .error e => .error e
        | .ok m => .ok (m, rest.drop len)

/-! ## Socket link — `src/agon-ez80/src/socket_link.rs`

The TX/RX queues live behind `Arc<Mutex<VecDeque<u8>>>` and are shared between
the CPU thread (`SocketSerialLink`) and the session pump (`SocketState`).
They are modelled by explicit state passing: a `VecDeque<u8>` is a `List Nat`
with `push_back` appending at the tail and `pop_front` taking the head.
Lock acquisition is modelled as always succeeding (on a poisoned lock the
source drops the operation, which never happens in a panic-free run). -/

structure SocketState where
  tx_queue : List Nat
  rx_queue : List Nat
  cts : Bool
deriving DecidableEq, Repr

/-- `SocketState::new`. -/
def SocketState.new : SocketState := ⟨[], [], true⟩

/-- `<SocketSerialLink as SerialLink>::send`: push one byte on the shared TX
queue. -/
def SocketState.send (s : SocketState) (byte : Nat) : SocketState :=
  { s with tx_queue := s.tx_queue ++ [byte] }

/-- `<SocketSerialLink as SerialLink>::recv`: pop the front of the RX queue. -/
def SocketState.recv (s : SocketState) : Option Nat × SocketState :=
  match s.rx_queue with
  | [] => (none, s)
  | b :: rest => (some b, { s with rx_queue := rest })

/-- `SocketState::drain_tx`: take all pending TX bytes, leaving the queue
empty. -/
def SocketState.drain_tx (s : SocketState) : List Nat × SocketState :=
  (s.tx_queue, { s with tx_queue := [] })

/-- `SocketState::queue_rx`: append received bytes to the RX queue in order. -/
def SocketState.queue_rx (s : SocketState) (bytes : List Nat) : SocketState :=
  { s with rx_queue := s.rx_queue ++ bytes }

/-- `SocketState::set_cts`. -/
def SocketState.set_cts (s : SocketState) (ready : Bool) : SocketState :=
  { s with cts := ready }

/-- A run of CPU-side `send` calls, one per byte, in order. -/
def SocketState.sendAll (s : SocketState) (bytes : List Nat) : SocketState :=
  bytes.foldl SocketState.send s

/-- The TX half of the session pump (`handle_vdp_session` main loop,
`src/agon-ez80/src/main.rs` lines 407–418): in each round the CPU enqueues a
batch of bytes, then the pump drains the TX queue and, when the drained batch
is non-empty, sends it as one `Message::UartData` frame.  Returns the frames
sent and the final state. -/
def pumpRounds (s : SocketState) : List (List Nat) → List Message × SocketState
  | [] => ([], s)
  | batch :: rest =>
      let s1 := s.sendAll batch
      let d := s1.drain_tx
      let r := pumpRounds d.2 rest
      (if d.1 = [] then r.1 else Message.UartData d.1 :: r.1, r.2)

/-- The byte sequence delivered by a list of frames: the concatenation of the
`UartData` payloads (the peer's dispatch appends exactly these bytes to its
RX queue, in order). -/
def uartBytes : List Message → List Nat
  | [] => []
  | .UartData d :: rest => d ++ uartBytes rest
  | _ :: rest => uartBytes rest

/-! ## Session handshake — `src/agon-ez80/src/main.rs` (listener) and
`src/agon-vdp-sdl/src/main.rs` (connector) -/

/-- The handshake head of `handle_vdp_session`: the listener receives the
first message from the VDP and requires it to be `Hello`; any other message
aborts the session with `InvalidFormat` before the pump loop is entered.
On success the session continues with the hello's fields. -/
def handleVdpSessionFirst (msg : Message) : Except ProtocolError (Nat × Nat) :=
  match msg with
  | .Hello version flags => .ok (version, flags)
  | _ => .error (.InvalidFormat "Expected HELLO from VDP")

/-- The handshake head of `run_session`: the connector sends `Hello` and
requires the first reply to be `HelloAck`; any other message aborts the
session with `InvalidFormat` before the pump loop is entered. -/
def runSessionFirst (msg : Message) : Except ProtocolError (Nat × List Nat) :=
  match msg with
  | .HelloAck version capabilities => .ok (version, capabilities)
  | _ => .error (.InvalidFormat "Expected HELLO_ACK")

/-! ## DZRP debugger bridge — `src/agon-dzrp-debugger/src/protocol.rs` -/

def CMD_INIT : Nat := 1

def CMD_CLOSE : Nat := 2

def CMD_GET_REGISTERS : Nat := 3

def CMD_SET_REGISTER : Nat := 4

def CMD_CONTINUE : Nat := 6

def CMD_PAUSE : Nat := 7

def CMD_READ_MEM : Nat := 8

def CMD_WRITE_MEM : Nat := 9

def CMD_LOOPBACK : Nat := 15

def CMD_STEP_INTO : Nat := 20

def CMD_ADD_BREAKPOINT : Nat := 40

def CMD_REMOVE_BREAKPOINT : Nat := 41

def CMD_STEP_OVER : Nat := 44

def NTF_PAUSE : Nat := 1

def BREAK_REASON_MANUAL : Nat := 1

def BREAK_REASON_BREAKPOINT : Nat := 2

def BREAK_REASON_OTHER : Nat := 5

/-- `u32::to_le_bytes` of `n % 2^32` (low byte first). -/
def toLe32 (n : Nat) : List Nat :=
  [n % 256, n / 256 % 256, n / 65536 % 256, n / 16777216 % 256]

/-- `read_u16_le`: read a 16-bit little-endian value, returning 0 when fewer
than 2 bytes are available at `offset`.  The guarded accesses `data[offset]`,
`data[offset+1]` are modelled with `List.getD _ _ 0`. -/
def read_u16_le (data : List Nat) (offset : Nat) : Nat :=
  if data.length < offset + 2 then 0
  else data.getD offset 0 + 256 * data.getD (offset + 1) 0

/-- `read_u24_le`: read a 24-bit little-endian value (eZ80 address), returning
0 when fewer than 3 bytes are available at `offset`. -/
def read_u24_le (data : List Nat) (offset : Nat) : Nat :=
  if data.length < offset + 3 then 0
  else data.getD offset 0 + 256 * data.getD (offset + 1) 0
    + 65536 * data.getD (offset + 2) 0

/-- `read_u32_le`: read a 32-bit little-endian value, returning 0 when fewer
than 4 bytes are available at `offset`. -/
def read_u32_le (data : List Nat) (offset : Nat) : Nat :=
  if data.length < offset + 4 then 0
  else data.getD offset 0 + 256 * data.getD (offset + 1) 0
    + 65536 * data.getD (offset + 2) 0 + 16777216 * data.getD (offset + 3) 0

/-- `write_u16_le`: the two little-endian bytes appended for a `u16` value
(the argument is a `u16` in the source, so `value < 2^16`). -/
def write_u16_le (value : Nat) : List Nat := [value % 256, value / 256 % 256]

/-- `write_u24_le`: the three little-endian bytes appended for an eZ80
address (`value & 0xFF`, `(value >> 8) & 0xFF`, `(value >> 16) & 0xFF`). -/
def write_u24_le (value : Nat) : List Nat :=
  [value % 256, value / 256 % 256, value / 65536 % 256]

/-- `struct DzrpMessage`: a DZRP request received from DeZog. -/
structure DzrpMessage where
  seq_num : Nat
  cmd_id : Nat
  payload : List Nat
deriving DecidableEq, Repr

/-- `DzrpMessage::parse`: parse a complete message buffer (without its length
prefix). -/
def DzrpMessage.parse (data : List Nat) : Option DzrpMessage :=
  if data.length < 2 then none
  else some ⟨data.getD 0 0, data.getD 1 0, data.drop 2⟩

/-- `DzrpMessage::response`: response envelope
`[len:u32-LE][seq_num][payload...]` with `len = (1 + payload.len()) as u32`. -/
def DzrpMessage.response (msg : DzrpMessage) (payload : List Nat) : List Nat :=
  toLe32 ((1 + payload.length) % 4294967296) ++ msg.seq_num :: payload

/-- `create_notification`: notification envelope
`[len:u32-LE][seq=0][ntf_id][payload...]` with
`len = (2 + payload.len()) as u32`. -/
def create_notification (ntf_id : Nat) (payload : List Nat) : List Nat :=
  toLe32 ((2 + payload.length) % 4294967296) ++ 0 :: ntf_id :: payload

/-! ## Debugger command types

`DebugCmd`, `DebugResp`, `Trigger` and `PauseReason` are declared by the
`agon_ez80_emulator` crate (an external collaborator of this repository);
they are modelled here with exactly the constructors and fields this
repository's code constructs or inspects.  `Trigger { address, once, actions }`
is inlined into the `AddTrigger` constructor, and `DebugResp::State` — of
which the server only ever reads `registers.pc` — carries just that program
counter. -/

inductive PauseReason where
  | DebuggerRequested : PauseReason
  | DebuggerBreakpoint : PauseReason
  | IOBreakpoint : Nat → PauseReason
  | OutOfBoundsMemAccess : Nat → PauseReason
deriving DecidableEq, Repr

inductive DebugCmd where
  | GetRegisters : DebugCmd
  | SetRegister : (reg_index : Nat) → (value : Nat) → DebugCmd
  | Continue : DebugCmd
  | Pause : PauseReason → DebugCmd
  | GetMemory : (start : Nat) → (len : Nat) → DebugCmd
  | WriteMemory : (start : Nat) → (data : List Nat) → DebugCmd
  | Step : DebugCmd
  | StepOver : DebugCmd
  | AddTrigger : (address : Nat) → (once : Bool) → (actions : List DebugCmd) → DebugCmd
  | DeleteTrigger : (address : Nat) → DebugCmd
  | GetState : DebugCmd
deriving Repr

inductive DebugResp where
  | Pong : DebugResp
  | Resumed : DebugResp
  | Paused : PauseReason → DebugResp
  | State : (pc : Nat) → DebugResp
deriving DecidableEq, Repr

/-! ## DZRP translator — `src/agon-dzrp-debugger/src/translator.rs` -/

/-- `dzrp_to_debug_cmd`: convert a DZRP command to internal debug commands;
`none` for commands that are handled directly, unsupported, or malformed. -/
def dzrp_to_debug_cmd (msg : DzrpMessage) : Option (List DebugCmd) :=
  if msg.cmd_id = CMD_INIT then none
  else if msg.cmd_id = CMD_CLOSE then none
  else if msg.cmd_id = CMD_GET_REGISTERS then some [.GetRegisters]
  else if msg.cmd_id = CMD_SET_REGISTER then
    if msg.payload.length = 0 then none
    else
      let reg_index := msg.payload.getD 0 0
      if 4 ≤ msg.payload.length then
        some [.SetRegister reg_index (read_u24_le msg.payload 1)]
      else if 3 ≤ msg.payload.length then
        some [.SetRegister reg_index (read_u16_le msg.payload 1)]
      else none
  else if msg.cmd_id = CMD_CONTINUE then some [.Continue]
  else if msg.cmd_id = CMD_PAUSE then some [.Pause .DebuggerRequested]
  else if msg.cmd_id = CMD_READ_MEM then
    if msg.payload.length < 5 then none
    else some [.GetMemory (read_u24_le msg.payload 0) (read_u16_le msg.payload 3)]
  else if msg.cmd_id = CMD_WRITE_MEM then
    if msg.payload.length < 3 then none
    else some [.WriteMemory (read_u24_le msg.payload 0) (msg.payload.drop 3)]
  else if msg.cmd_id = CMD_STEP_INTO then some [.Step]
  else if msg.cmd_id = CMD_STEP_OVER then some [.StepOver]
  else if msg.cmd_id = CMD_ADD_BREAKPOINT then
    if msg.payload.length < 7 then none
    else
      some [.AddTrigger (read_u24_le msg.payload 4) false
        [.Pause .DebuggerBreakpoint, .GetState]]
  else if msg.cmd_id = CMD_REMOVE_BREAKPOINT then
    if msg.payload.length < 3 then none
    else some [.DeleteTrigger (read_u24_le msg.payload 0)]
  else if msg.cmd_id = CMD_LOOPBACK then none
  else none

/-- `pause_to_notification_payload`: NTF_PAUSE payload
`[break_reason][pc:u24-LE]`. -/
def pause_to_notification_payload (reason : PauseReason) (pc : Nat) : List Nat :=
  (match reason with
    | .DebuggerRequested => BREAK_REASON_MANUAL
    | .DebuggerBreakpoint => BREAK_REASON_BREAKPOINT
    | .IOBreakpoint _ => BREAK_REASON_OTHER
    | .OutOfBoundsMemAccess _ => BREAK_REASON_OTHER) :: write_u24_le pc

/-- `create_init_response`: INIT response payload
`[err=0][dzrp_version=2][name_len=4]"eZ80"[max_bp:u16-LE=255]`
(`"eZ80"` is the bytes `0x65 0x5A 0x38 0x30`). -/
def create_init_response : List Nat :=
  [0, 2] ++ [4] ++ [0x65, 0x5A, 0x38, 0x30] ++ write_u16_le 255

/-! ## DZRP server — `src/agon-dzrp-debugger/src/server.rs` -/

/-- The mutable fields of `DzrpServer` touched by message handling.  The
`HashMap<u32, u16>` of breakpoint ids is modelled as an association list with
the `HashMap` insert/lookup semantics (at most one entry per key). -/
structure ServerState where
  breakpoint_ids : List (Nat × Nat)
  next_bp_id : Nat
  last_pc : Nat
deriving DecidableEq, Repr

/-- `HashMap::insert`: bind `k` to `v`, replacing any previous binding. -/
def mapInsert (m : List (Nat × Nat)) (k v : Nat) : List (Nat × Nat) :=
  (k, v) :: m.filter (fun p => p.1 ≠ k)

/-- `HashMap::get`. -/
def mapLookup (m : List (Nat × Nat)) (k : Nat) : Option Nat :=
  (m.find? (fun p => p.1 = k)).map (·.2)

/-- `DzrpServer::new` state: empty table, `next_bp_id = 1`, `last_pc = 0`. -/
def ServerState.new : ServerState := ⟨[], 1, 0⟩

/-- `DzrpServer::try_parse_message`: split one complete DZRP message off the
front of the receive buffer, `[len:u32-LE]` prefix first. -/
def try_parse_message (data : List Nat) : Option (DzrpMessage × Nat) :=
  if data.length < 4 then none
  else
    let len := read_u32_le data 0
    let total_len := 4 + len
    if data.length < total_len then none
    else (DzrpMessage.parse ((data.take total_len).drop 4)).map (fun m => (m, total_len))

/-- The arms of `DzrpServer::handle_message` that do not consult the debugger
response channel: `CMD_INIT`, `CMD_CLOSE`, `CMD_LOOPBACK`, `CMD_ADD_BREAKPOINT`
and `CMD_REMOVE_BREAKPOINT` (`none` for the remaining arms, which block on
channel replies).  For the two breakpoint arms `wait_for_pong` only drains the
response channel — modelled here with that channel idle — so the result is the
updated server state, the `DebugCmd`s sent on the `tx` channel in order, and
the response bytes written back to the IDE. -/
def handle_message (s : ServerState) (msg : DzrpMessage) :
    Option (ServerState × List DebugCmd × List Nat) :=
  if msg.cmd_id = CMD_INIT then
    some (s, [], msg.response create_init_response)
  else if msg.cmd_id = CMD_CLOSE then
    some (s, [], msg.response [])
  else if msg.cmd_id = CMD_LOOPBACK then
    some (s, [], msg.response msg.payload)
  else if msg.cmd_id = CMD_ADD_BREAKPOINT then
    let bp_id := if 2 ≤ msg.payload.length then read_u16_le msg.payload 0
      else s.next_bp_id
    let s1 : ServerState := { s with next_bp_id := (s.next_bp_id + 1) % 65536 }
    if 7 ≤ msg.payload.length then
      let address := read_u24_le msg.payload 4
      let s2 : ServerState :=
        { s1 with breakpoint_ids := mapInsert s1.breakpoint_ids address bp_id }
      let cmds := (dzrp_to_debug_cmd msg).getD []
      some (s2, cmds, msg.response (0 :: write_u16_le bp_id))
    else
      some (s1, [], msg.response [1])
  else if msg.cmd_id = CMD_REMOVE_BREAKPOINT then
    let cmds := (dzrp_to_debug_cmd msg).getD []
    some (s, cmds, msg.response [])
  else none

/-- One step of `DzrpServer::check_debug_responses`: handle a single response
arriving on the debugger channel.  A `State` response caches the program
counter; a `Paused` response emits an `NTF_PAUSE` notification built from the
cached `last_pc`.  Returns the new state and the notifications written to the
IDE socket. -/
def check_debug_response (s : ServerState) (resp : DebugResp) :
    ServerState × List (List Nat) :=
  let s1 := match resp with
    | .State pc => { s with last_pc := pc }
    | _ => s
  match resp with
  | .Paused reason =>
      (s1, [create_notification NTF_PAUSE (pause_to_notification_payload reason s1.last_pc)])
  | _ => (s1, [])

/-! ## Helper lemmas -/

/-- Reading back the two little-endian bytes of a value below 2^16 recovers
the value. -/
theorem fromLe16_split (n : Nat) (h : n < 65536) :
    fromLe16 (n % 256) (n / 256 % 256) = n := by
  unfold fromLe16
  omega

/-- `decodeBody` inverts the type/payload split performed by `encode`. -/
theorem decodeBody_payloadOf (m : Message) :
    decodeBody (payloadOf m).1 (payloadOf m).2 = .ok m := by
  cases m with
  | UartData data => rfl
  | Vsync => rfl
  | Cts ready => cases ready <;> rfl
  | Hello version flags => rfl
  | HelloAck version capabilities => rfl
  | Shutdown => rfl

/-- Evaluation of `Message.decode` on a well-framed buffer: when the length
field equals `1 + payload.length` and the body decodes, decoding returns the
message and consumes the whole buffer. -/
theorem decode_framed_ok (b0 b1 t : Nat) (payload : List Nat) (m : Message)
    (hlen : fromLe16 b0 b1 = 1 + payload.length)
    (hb : decodeBody t payload = .ok m) :
    Message.decode (b0 :: b1 :: t :: payload) = .ok (m, 3 + payload.length) := by
  unfold Message.decode
  simp only [List.getD_cons_zero, List.getD_cons_succ, List.length_cons, hlen]
  rw [if_neg (by omega), if_neg (by omega), if_neg (by omega)]
  rw [List.take_of_length_le (by simp only [List.length_cons]; omega)]
  simp only [List.drop_succ_cons, List.drop_zero, hb,
    show 2 + (1 + payload.length) = 3 + payload.length from by omega]

/-- Evaluation of `Message.decode` on a buffer of at least 3 bytes whose
length field reads 0. -/
theorem decode_zero_framed (b0 b1 t : Nat) (rest : List Nat)
    (h : fromLe16 b0 b1 = 0) :
    Message.decode (b0 :: b1 :: t :: rest) =
      .error (.InvalidFormat "Zero-length message") := by
  unfold Message.decode
  simp only [List.getD_cons_zero, List.getD_cons_succ, List.length_cons, h]
  rw [if_neg (by omega), if_pos trivial]

/-- `Message.encode` in explicit head-byte form, assuming the `u16` length
field does not wrap. -/
theorem encode_eq (m : Message) (h : (payloadOf m).2.length ≤ 65534) :
    Message.encode m = ((1 + (payloadOf m).2.length) % 256) ::
      ((1 + (payloadOf m).2.length) / 256 % 256) :: (payloadOf m).1 :: (payloadOf m).2 := by
  have hmod : (1 + (payloadOf m).2.length) % 65536 = 1 + (payloadOf m).2.length :=
    Nat.mod_eq_of_lt (by omega)
  simp only [Message.encode, toLe16, hmod]
  rfl

/-! ## Claims -/

/-- C1 (amended): for every `Message` value whose wire payload is at most
65534 bytes — so that the `u16` length field `(1 + payload.len()) as u16`
does not wrap — `Message::decode` applied to `Message::encode m` returns
`(m, n)` where `n` is the total byte length of `encode m`. -/
theorem C1_roundtrip (m : Message) (h : (payloadOf m).2.length ≤ 65534) :
    Message.decode (Message.encode m) = .ok (m, (Message.encode m).length) := by
  rw [encode_eq m h,
    decode_framed_ok _ _ _ _ m (fromLe16_split (1 + (payloadOf m).2.length) (by omega))
      (decodeBody_payloadOf m)]
  simp only [List.length_cons,
    show (payloadOf m).2.length + 1 + 1 + 1 = 3 + (payloadOf m).2.length from by omega]

/-- C1 witness: the round trip at a concrete three-byte `UartData`. -/
theorem C1_roundtrip_witness :
    (payloadOf (.UartData [0x41, 0x42, 0x43])).2.length ≤ 65534 ∧
    Message.decode (Message.encode (.UartData [0x41, 0x42, 0x43])) =
      .ok (.UartData [0x41, 0x42, 0x43], (Message.encode (.UartData [0x41, 0x42, 0x43])).length) :=
  ⟨by decide, C1_roundtrip (.UartData [0x41, 0x42, 0x43]) (by decide)⟩

/-- C1 counterexample: for a `UartData` of 65535 bytes the length field
`(1 + 65535) as u16` wraps to 0, so decoding its encoding fails with the
zero-length error instead of returning the message back. -/
theorem C1_counterexample :
    Message.decode (Message.encode (.UartData (List.replicate 65535 0))) =
      .error (.InvalidFormat "Zero-length message") ∧
    Message.decode (Message.encode (.UartData (List.replicate 65535 0))) ≠
      .ok (.UartData (List.replicate 65535 0),
        (Message.encode (.UartData (List.replicate 65535 0))).length) := by
  have he : Message.encode (.UartData (List.replicate 65535 0)) =
      0 :: 0 :: 1 :: List.replicate 65535 0 := by
    simp only [Message.encode, toLe16, payloadOf, List.length_replicate, UART_DATA]
    norm_num
  have hd : Message.decode (Message.encode (.UartData (List.replicate 65535 0))) =
      .error (.InvalidFormat "Zero-length message") := by
    rw [he]
    exact decode_zero_framed 0 0 1 _ rfl
  exact ⟨hd, by rw [hd]; exact fun hh => Except.noConfusion hh⟩

/-- C2 (amended): the `PayloadTooLarge` failure for a stated length larger
than `MAX_UART_DATA_SIZE + 1 = 1025` belongs to the streaming reader
`Message::read_from` only: whatever follows the two length bytes, it fails
with `PayloadTooLarge`.  The contiguous-buffer decoder `Message::decode`
performs no size check (see the counterexample). -/
theorem C2_read_from_too_large (b0 b1 : Nat) (rest : List Nat)
    (h : 1025 < fromLe16 b0 b1) :
    Message.read_from (b0 :: b1 :: rest) = .error (.PayloadTooLarge (fromLe16 b0 b1)) := by
  unfold Message.read_from
  simp only [List.getD_cons_zero, List.getD_cons_succ, List.length_cons]
  rw [if_neg (by omega), if_neg (by omega), if_pos]
  unfold MAX_UART_DATA_SIZE
  omega

/-- C2 witness: a stream whose length field states 1026. -/
theorem C2_read_from_too_large_witness :
    1025 < fromLe16 2 4 ∧
    Message.read_from [2, 4] = .error (.PayloadTooLarge (fromLe16 2 4)) :=
  ⟨by decide, C2_read_from_too_large 2 4 [] (by decide)⟩

/-- C2 counterexample: a complete buffer whose length field states 1026
(larger than 1025) is decoded *successfully* by `Message::decode` — the
contiguous-buffer decoder has no `PayloadTooLarge` check, contrary to the
claim that both decoders share this failure case. -/
theorem C2_counterexample :
    fromLe16 ((2 :: 4 :: 1 :: List.replicate 1025 65).getD 0 0)
        ((2 :: 4 :: 1 :: List.replicate 1025 65).getD 1 0) = 1026 ∧
    Message.decode (2 :: 4 :: 1 :: List.replicate 1025 65) =
      .ok (.UartData (List.replicate 1025 65), 1028) := by
  constructor
  · simp only [List.getD_cons_zero, List.getD_cons_succ, fromLe16]
  · rw [decode_framed_ok 2 4 1 (List.replicate 1025 65) (.UartData (List.replicate 1025 65))
      (by simp only [fromLe16, List.length_replicate]) rfl]
    simp only [List.length_replicate]

/-- C10: `Message::decode` accepts a `UART_DATA` frame with an empty payload:
the buffer `[0x01, 0x00, 0x01]` decodes to `UartData []` consuming all 3
bytes, and `Message::read_from` accepts the same frame (leaving the stream
empty). -/
theorem C10_empty_uart_data :
    Message.decode [0x01, 0x00, 0x01] = .ok (.UartData [], 3) ∧
    Message.read_from [0x01, 0x00, 0x01] = .ok (.UartData [], []) := by
  decide

/-- A run of `send` calls appends the bytes, in order, to the TX queue and
touches nothing else. -/
theorem sendAll_eq (s : SocketState) (bytes : List Nat) :
    s.sendAll bytes = { s with tx_queue := s.tx_queue ++ bytes } := by
  induction bytes generalizing s with
  | nil => simp [SocketState.sendAll]
  | cons b bs ih =>
      show (s.send b).sendAll bs = _
      rw [ih]
      simp [SocketState.send]

/-- The pump's per-round drain/frame cycle re-emits, in order, exactly the
bytes the CPU enqueued. -/
theorem pumpRounds_join (s : SocketState) (h : s.tx_queue = [])
    (batches : List (List Nat)) :
    uartBytes (pumpRounds s batches).1 = batches.flatten := by
  induction batches generalizing s with
  | nil => simp [pumpRounds, uartBytes]
  | cons batch rest ih =>
      simp only [pumpRounds, sendAll_eq, h, List.nil_append, SocketState.drain_tx,
        List.flatten_cons]
      by_cases hb : batch = []
      · rw [if_pos hb, ih _ rfl, hb, List.nil_append]
      · rw [if_neg hb]
        show batch ++ uartBytes (pumpRounds _ rest).1 = _
        rw [ih _ rfl]

/-- C3: bytes pushed on the shared TX queue via `SerialLink::send` are
returned by `SocketState::drain_tx` exactly and in FIFO order, leaving the
queue empty; `SocketState::queue_rx` appends its argument bytes to the RX
queue in order; and over any number of pump rounds the concatenation of the
emitted `UartData` frames equals the concatenation of the enqueued batches,
in order. -/
theorem C3_fifo (s : SocketState) (h : s.tx_queue = [])
    (batches : List (List Nat)) (bytes : List Nat) :
    (s.sendAll bytes).drain_tx.1 = bytes ∧
    (s.sendAll bytes).drain_tx.2.tx_queue = [] ∧
    (s.queue_rx bytes).rx_queue = s.rx_queue ++ bytes ∧
    uartBytes (pumpRounds s batches).1 = batches.flatten := by
  refine ⟨?_, rfl, rfl, pumpRounds_join s h batches⟩
  rw [sendAll_eq, h]
  rfl

/-- C3 witness: two pump rounds and a three-byte send run on a fresh state. -/
theorem C3_fifo_witness :
    (SocketState.new.sendAll [4, 5, 6]).drain_tx.1 = [4, 5, 6] ∧
    (SocketState.new.sendAll [4, 5, 6]).drain_tx.2.tx_queue = [] ∧
    (SocketState.new.queue_rx [4, 5, 6]).rx_queue = SocketState.new.rx_queue ++ [4, 5, 6] ∧
    uartBytes (pumpRounds SocketState.new [[1, 2], [3]]).1 = [[1, 2], [3]].flatten :=
  C3_fifo SocketState.new rfl [[1, 2], [3]] [4, 5, 6]

/-- C4: if the first message of the handshake is not the expected one — the
listener (`handle_vdp_session`) expects `Hello` from the connector, the
connector (`run_session`) expects `HelloAck` as the first reply — the session
function returns an `InvalidFormat` error, its early `return` skipping the
pump loop. -/
theorem C4_handshake_mismatch (m1 m2 : Message)
    (h1 : ∀ version flags, m1 ≠ .Hello version flags)
    (h2 : ∀ version capabilities, m2 ≠ .HelloAck version capabilities) :
    handleVdpSessionFirst m1 = .error (.InvalidFormat "Expected HELLO from VDP") ∧
    runSessionFirst m2 = .error (.InvalidFormat "Expected HELLO_ACK") := by
  constructor
  · cases m1 with
    | Hello version flags => exact absurd rfl (h1 version flags)
    | _ => rfl
  · cases m2 with
    | HelloAck version capabilities => exact absurd rfl (h2 version capabilities)
    | _ => rfl

/-- C4 witness: a `Vsync` first message aborts both sides. -/
theorem C4_handshake_mismatch_witness :
    handleVdpSessionFirst .Vsync = .error (.InvalidFormat "Expected HELLO from VDP") ∧
    runSessionFirst .Vsync = .error (.InvalidFormat "Expected HELLO_ACK") :=
  C4_handshake_mismatch .Vsync .Vsync
    (fun _ _ h => Message.noConfusion h) (fun _ _ h => Message.noConfusion h)

/-- Looking a key up right after inserting it yields the inserted value. -/
theorem mapLookup_mapInsert (m : List (Nat × Nat)) (k v : Nat) :
    mapLookup (mapInsert m k v) k = some v := by
  unfold mapLookup mapInsert
  rw [List.find?_cons_of_pos _ (by simp)]
  rfl

/-- C5: an `ADD_BREAKPOINT` request with at least 7 payload bytes makes the
server read the IDE-supplied breakpoint id from payload bytes 0..2 (u16-LE)
and the address from bytes 4..7 (u24-LE), store the address → id mapping in
its breakpoint table, forward one `AddTrigger` whose trigger carries that
address and the action list `[Pause(DebuggerBreakpoint), GetState]`, and
answer with payload `[status=0, id:u16-LE]` in a response envelope. -/
theorem C5_add_breakpoint (s : ServerState) (msg : DzrpMessage)
    (hc : msg.cmd_id = CMD_ADD_BREAKPOINT) (hp : 7 ≤ msg.payload.length) :
    handle_message s msg =
      some ({ s with
          next_bp_id := (s.next_bp_id + 1) % 65536,
          breakpoint_ids := mapInsert s.breakpoint_ids
            (msg.payload.getD 4 0 + 256 * msg.payload.getD 5 0 + 65536 * msg.payload.getD 6 0)
            (msg.payload.getD 0 0 + 256 * msg.payload.getD 1 0) },
        [.AddTrigger
          (msg.payload.getD 4 0 + 256 * msg.payload.getD 5 0 + 65536 * msg.payload.getD 6 0)
          false [.Pause .DebuggerBreakpoint, .GetState]],
        msg.response (0 :: write_u16_le (msg.payload.getD 0 0 + 256 * msg.payload.getD 1 0))) ∧
    mapLookup
      (mapInsert s.breakpoint_ids
        (msg.payload.getD 4 0 + 256 * msg.payload.getD 5 0 + 65536 * msg.payload.getD 6 0)
        (msg.payload.getD 0 0 + 256 * msg.payload.getD 1 0))
      (msg.payload.getD 4 0 + 256 * msg.payload.getD 5 0 + 65536 * msg.payload.getD 6 0) =
      some (msg.payload.getD 0 0 + 256 * msg.payload.getD 1 0) := by
  have hn2 : ¬ msg.payload.length < 0 + 2 := by omega
  have hn43 : ¬ msg.payload.length < 4 + 3 := by omega
  have hn7 : ¬ msg.payload.length < 7 := by omega
  have hge2 : 2 ≤ msg.payload.length := by omega
  refine ⟨?_, mapLookup_mapInsert _ _ _⟩
  simp [handle_message, dzrp_to_debug_cmd, read_u16_le, read_u24_le, hc, hp,
    hn2, hn43, hn7, hge2, CMD_INIT, CMD_CLOSE, CMD_LOOPBACK, CMD_GET_REGISTERS,
    CMD_SET_REGISTER, CMD_CONTINUE, CMD_PAUSE, CMD_READ_MEM, CMD_WRITE_MEM,
    CMD_STEP_INTO, CMD_STEP_OVER, CMD_ADD_BREAKPOINT, CMD_REMOVE_BREAKPOINT]

/-- C5 witness: bp_id 0x1234 at address 0x0A0B0C on a fresh server. -/
theorem C5_add_breakpoint_witness :
    handle_message ServerState.new ⟨5, 40, [0x34, 0x12, 0, 0, 0x0C, 0x0B, 0x0A]⟩ =
      some (⟨[(0x0A0B0C, 0x1234)], 2, 0⟩,
        [.AddTrigger 0x0A0B0C false [.Pause .DebuggerBreakpoint, .GetState]],
        [4, 0, 0, 0, 5, 0, 0x34, 0x12]) ∧
    mapLookup (mapInsert ServerState.new.breakpoint_ids 0x0A0B0C 0x1234) 0x0A0B0C =
      some 0x1234 :=
  C5_add_breakpoint ServerState.new ⟨5, 40, [0x34, 0x12, 0, 0, 0x0C, 0x0B, 0x0A]⟩
    rfl (by norm_num)

/-- C6 (amended): a `REMOVE_BREAKPOINT` request with at least 3 payload bytes
makes the server forward one `DeleteTrigger` carrying the u24-LE address from
payload bytes 0..3 and acknowledge with an empty response payload; the
breakpoint table is left unchanged — the address → id entry is neither looked
up nor deleted. -/
theorem C6_remove_breakpoint (s : ServerState) (msg : DzrpMessage)
    (hc : msg.cmd_id = CMD_REMOVE_BREAKPOINT) (hp : 3 ≤ msg.payload.length) :
    handle_message s msg =
      some (s,
        [.DeleteTrigger
          (msg.payload.getD 0 0 + 256 * msg.payload.getD 1 0 + 65536 * msg.payload.getD 2 0)],
        msg.response []) := by
  have hn3 : ¬ msg.payload.length < 3 := by omega
  have hn03 : ¬ msg.payload.length < 0 + 3 := by omega
  simp [handle_message, dzrp_to_debug_cmd, read_u24_le, hc, hn3, hn03,
    CMD_INIT, CMD_CLOSE, CMD_LOOPBACK, CMD_GET_REGISTERS, CMD_SET_REGISTER,
    CMD_CONTINUE, CMD_PAUSE, CMD_READ_MEM, CMD_WRITE_MEM, CMD_STEP_INTO,
    CMD_STEP_OVER, CMD_ADD_BREAKPOINT, CMD_REMOVE_BREAKPOINT]

/-- C6 witness: removing address 0x0A0B0C on a fresh server forwards the
delete and acknowledges. -/
theorem C6_remove_breakpoint_witness :
    handle_message ServerState.new ⟨6, 41, [0x0C, 0x0B, 0x0A]⟩ =
      some (ServerState.new, [.DeleteTrigger 0x0A0B0C], [1, 0, 0, 0, 6]) :=
  C6_remove_breakpoint ServerState.new ⟨6, 41, [0x0C, 0x0B, 0x0A]⟩ rfl (by norm_num)

/-- C6 counterexample: with the mapping `0x0A0B0C → 0x1234` stored, a
`REMOVE_BREAKPOINT` for that very address leaves the server state — including
the breakpoint table — unchanged: the entry is still present afterwards,
refuting the claim that the server deletes the address-to-id entry. -/
theorem C6_counterexample :
    handle_message ⟨[(0x0A0B0C, 0x1234)], 2, 0⟩ ⟨6, 41, [0x0C, 0x0B, 0x0A]⟩ =
      some (⟨[(0x0A0B0C, 0x1234)], 2, 0⟩, [.DeleteTrigger 0x0A0B0C], [1, 0, 0, 0, 6]) ∧
    mapLookup ([(0x0A0B0C, 0x1234)] : List (Nat × Nat)) 0x0A0B0C = some 0x1234 :=
  ⟨rfl, rfl⟩

/-- C7 (amended): for every `INIT` request with sequence number `S`, the DZRP
response is `[0A 00 00 00][S][00][02][04]"eZ80"[FF 00]`: the u32-LE length
prefix is 10 (1 for the echoed seq plus the 9 payload bytes
`[err=0][dzrp_major=2][name_len=4]"eZ80"[max_bp:u16-LE=255]`), not 6. -/
theorem C7_init_response (s : ServerState) (msg : DzrpMessage)
    (hc : msg.cmd_id = CMD_INIT) :
    handle_message s msg =
      some (s, [],
        [10, 0, 0, 0] ++ msg.seq_num :: [0, 2, 4, 0x65, 0x5A, 0x38, 0x30, 255, 0]) := by
  simp [handle_message, hc, CMD_INIT, DzrpMessage.response, create_init_response,
    toLe32, write_u16_le]

/-- C7 witness: the INIT response at sequence number 9. -/
theorem C7_init_response_witness :
    handle_message ServerState.new ⟨9, 1, []⟩ =
      some (ServerState.new, [],
        [10, 0, 0, 0] ++ 9 :: [0, 2, 4, 0x65, 0x5A, 0x38, 0x30, 255, 0]) :=
  C7_init_response ServerState.new ⟨9, 1, []⟩ rfl

/-- C7 counterexample: for seq 7 the actual response bytes start with length
prefix `[0A 00 00 00]`, not the claimed `[06 00 00 00]`. -/
theorem C7_counterexample :
    handle_message ServerState.new ⟨7, 1, []⟩ =
      some (ServerState.new, [],
        [10, 0, 0, 0, 7, 0, 2, 4, 0x65, 0x5A, 0x38, 0x30, 255, 0]) ∧
    ([10, 0, 0, 0, 7, 0, 2, 4, 0x65, 0x5A, 0x38, 0x30, 255, 0] : List Nat) ≠
      [6, 0, 0, 0, 7, 0, 2, 4, 0x65, 0x5A, 0x38, 0x30, 255, 0] :=
  ⟨rfl, by decide⟩

/-- C8: when the debugger channel yields `Paused(DebuggerBreakpoint)` and the
cached program counter is 0x123456, the server writes one notification whose
envelope is `[len=6:u32-LE][seq=0][ntf_id=1]` and whose payload is
`[02][56][34][12]` (break reason 2, then the PC as u24-LE). -/
theorem C8_pause_notification (s : ServerState) (h : s.last_pc = 0x123456) :
    check_debug_response s (.Paused .DebuggerBreakpoint) =
      (s, [[6, 0, 0, 0, 0, 1, 2, 0x56, 0x34, 0x12]]) := by
  simp [check_debug_response, create_notification, pause_to_notification_payload,
    write_u24_le, toLe32, NTF_PAUSE, BREAK_REASON_BREAKPOINT, h]

/-- C8 witness: the notification at a concrete server state. -/
theorem C8_pause_notification_witness :
    check_debug_response ⟨[], 1, 0x123456⟩ (.Paused .DebuggerBreakpoint) =
      (⟨[], 1, 0x123456⟩, [[6, 0, 0, 0, 0, 1, 2, 0x56, 0x34, 0x12]]) :=
  C8_pause_notification ⟨[], 1, 0x123456⟩ rfl

/-- C9: the little-endian field readers are total: whenever the offset plus
the field width exceeds the slice length they return 0 (instead of reading
out of bounds), and whenever the guard admits the read, every index they
access is in bounds (`List.get?` returns `some`). -/
theorem C9_readers_total (data : List Nat) (offset : Nat) :
    (data.length < offset + 2 → read_u16_le data offset = 0) ∧
    (data.length < offset + 3 → read_u24_le data offset = 0) ∧
    (data.length < offset + 4 → read_u32_le data offset = 0) ∧
    (offset + 2 ≤ data.length →
      (data.get? offset).isSome ∧ (data.get? (offset + 1)).isSome) ∧
    (offset + 3 ≤ data.length → (data.get? (offset + 2)).isSome) ∧
    (offset + 4 ≤ data.length → (data.get? (offset + 3)).isSome) := by
  have hsome : ∀ i, i < data.length → (data.get? i).isSome := by
    intro i hi
    rw [List.get?_eq_get hi]
    rfl
  refine ⟨?_, ?_, ?_, ?_, ?_, ?_⟩
  · intro h; unfold read_u16_le; rw [if_pos h]
  · intro h; unfold read_u24_le; rw [if_pos h]
  · intro h; unfold read_u32_le; rw [if_pos h]
  · intro h; exact ⟨hsome _ (by omega), hsome _ (by omega)⟩
  · intro h; exact hsome _ (by omega)
  · intro h; exact hsome _ (by omega)

/-- C9 witness: short-slice reads return 0; the last index of a 4-byte read
is in bounds on a 4-byte slice. -/
theorem C9_readers_total_witness :
    read_u16_le [0x12] 0 = 0 ∧ read_u24_le [0x12, 0x34] 0 = 0 ∧
    read_u32_le [0x12, 0x34, 0x56] 0 = 0 ∧
    (([0x12, 0x34, 0x56, 0x78] : List Nat).get? 3).isSome :=
  ⟨(C9_readers_total [0x12] 0).1 (by norm_num),
    (C9_readers_total [0x12, 0x34] 0).2.1 (by norm_num),
    (C9_readers_total [0x12, 0x34, 0x56] 0).2.2.1 (by norm_num),
    (C9_readers_total [0x12, 0x34, 0x56, 0x78] 0).2.2.2.2.2 (by norm_num)⟩

end FabAgon
